import Mathlib

/-!
Verification of the `pipe2py.modules.pipedateformat` module and of the
pipeline-execution core it plugs into (processor contract, configuration
resolution, item sequencing), as a shallow embedding in Lean 4.

The leaf module `pipedateformat.py` is embedded directly from its source;
the surrounding engine (the `processor` decorator, ConfigResolver and
ItemSequencer) is not part of the provided sources, so those parts are
modelled from the specification, as marked in their doc comments.
-/

set_option autoImplicit false

namespace Pipe2py

/-- A `time.struct_time`-like time tuple: the fields read by the format
directives this module uses (`datetime.timetuple()` in the doctests). -/
structure TimeTuple where
  tm_year : Nat
  tm_mon : Nat
  tm_mday : Nat
  tm_hour : Nat
  tm_min : Nat
  tm_sec : Nat
deriving DecidableEq, Repr

/-- Zero-pad a natural number to two digits, as `strftime` does for
`%m`, `%d`, `%H`, `%M`, `%S`. -/
def pad2 (n : Nat) : String :=
  if n < 10 then "0" ++ toString n else toString n

/-- Expansion of one `strftime` directive character against a time tuple. An
unrecognized directive is passed through unchanged, percent sign included. -/
def fmtDirective (t : TimeTuple) (c : Char) : List Char :=
  if c = 'Y' then (toString t.tm_year).data
  else if c = 'm' then (pad2 t.tm_mon).data
  else if c = 'd' then (pad2 t.tm_mday).data
  else if c = 'H' then (pad2 t.tm_hour).data
  else if c = 'M' then (pad2 t.tm_min).data
  else if c = 'S' then (pad2 t.tm_sec).data
  else if c = 'y' then (pad2 (t.tm_year % 100)).data
  else if c = '%' then ['%']
  else ['%', c]

/-- Character-list worker for `strftime`: literal characters are copied,
`%` followed by a directive character is expanded. -/
def strftimeChars (t : TimeTuple) : List Char → List Char
  | [] => []
  | '%' :: c :: rest => fmtDirective t c ++ strftimeChars t rest
  | c :: rest => c :: strftimeChars t rest

/-- Model of Python `time.strftime(format, timetuple)` restricted to the
directives relevant to this module. -/
def strftime (format : String) (t : TimeTuple) : String :=
  String.mk (strftimeChars t format.data)

/-- A value stored in an item field: text or a time tuple. -/
inductive Value where
  | str : String → Value
  | time : TimeTuple → Value
deriving DecidableEq, Repr

/-- An item is a mapping from field name to value (a Python dict, embedded
as an association list: first binding of a key is its value). -/
abbrev Item : Type := List (String × Value)

/-- Lookup of a key in an association list (Python `d.get(k)` /
`k in d and d[k]`). -/
def dget {α : Type} : List (String × α) → String → Option α
  | [], _ => none
  | (k, v) :: rest, key => if k = key then some v else dget rest key

/-- Functional dict update (Python `d[k] = v` on a fresh copy of `d`):
replaces the first binding of the key, or appends a new binding. The input
list is untouched; a new list is built (copy-then-overwrite). -/
def setField : Item → String → Value → Item
  | [], key, v => [(key, v)]
  | (k, w) :: rest, key, v =>
      if k = key then (key, v) :: rest else (k, w) :: setField rest key v

/-- The errors a module invocation can surface, mirroring the Python
exceptions: a missing dict key (`KeyError`), a `TypeError` from `strftime`
on a non-timetuple argument, and the engine's `ConfigurationError`. -/
inductive ConfError where
  | missingOption : String → ConfError
  | fieldNotFound : String → ConfError
  | pipelineNotFound : String → ConfError
deriving DecidableEq, Repr

/-- The name of the offending option key or field carried by a
`ConfigurationError`. -/
def ConfError.name : ConfError → String
  | .missingOption k => k
  | .fieldNotFound n => n
  | .pipelineNotFound n => n

/-- Runtime errors of the embedded Python code. -/
inductive PyErr where
  | keyError : String → PyErr
  | typeError : PyErr
  | configurationError : ConfError → PyErr
deriving DecidableEq, Repr

/-- The resolved pipe configuration handed to the module's transform (an
`Objectify` instance): the options of the date-format module. -/
structure Objconf where
  format : String
  field : String
deriving DecidableEq, Repr

/-- Source, `pipedateformat.py` line 42: `OPTS = {}`. -/
def OPTS : List (String × String) := []

/-- Source, `pipedateformat.py` line 43:
`DEFAULTS = {'format': '%m/%d/%Y %H:%M:%S', 'field': 'tuple'}`. -/
def DEFAULTS : List (String × String) :=
  [("format", "%m/%d/%Y %H:%M:%S"), ("field", "tuple")]

/-- Source, `pipedateformat.py` lines 47-68:
`parsed = kwargs['feed'] if skip else strftime(objconf.format, timetuple)`
then `return parsed, skip`. The subscript `kwargs['feed']` raises `KeyError`
when absent, and `strftime` raises `TypeError` on a non-timetuple, so the
embedding returns `Except`. -/
def parser (timetuple : Value) (objconf : Objconf) (skip : Bool)
    (kwargs : List (String × Value)) : Except PyErr (Value × Bool) :=
  if skip then
    match dget kwargs "feed" with
    | some f => .ok (f, skip)
    | none => .error (.keyError "feed")
  else
    match timetuple with
    | .time t => .ok (.str (strftime objconf.format t), skip)
    | _ => .error .typeError

/-- Modelled from the spec: ProcessorContract merges call-time overrides
over DEFAULTS — for each option key a value supplied in the raw conf is
used, an absent key falls back to DEFAULTS. -/
def confGet (defaults conf : List (String × String)) (key : String) : Option String :=
  match dget conf key with
  | some v => some v
  | none => dget defaults key

/-- Modelled from the spec: the resolved configuration object (an
`Objectify` over the merge of `conf` over `DEFAULTS`) for the date-format
module, whose DEFAULTS supply both the `format` and the `field` option. -/
def buildObjconf (conf : List (String × String)) : Objconf :=
  { format := (confGet DEFAULTS conf "format").getD ""
  , field := (confGet DEFAULTS conf "field").getD "" }

/-- Modelled from the spec: the `assign` option names the output field the
module writes its result to; its default for this module is `content`. -/
def assignOf (conf : List (String × String)) : String :=
  (dget conf "assign").getD "content"

/-- Modelled from the spec: the ambient keyword arguments handed to the
transform carry the item's `feed` fallback value when present. -/
def feedKwargs (item : Item) : List (String × Value) :=
  match dget item "feed" with
  | some v => [("feed", v)]
  | none => []

/-- Modelled from the spec: ProcessorContract's per-item driver for the
date-format module — resolve the configuration (merge `conf` over
`DEFAULTS`), extract the designated source field from the item (failing
with a `ConfigurationError` naming the field when it cannot be resolved),
invoke the module's transform `parser`, and place the returned value at the
`assign` field of a new item derived from the input item. -/
def processItem (conf : List (String × String)) (skip : Bool) (item : Item) :
    Except PyErr Item :=
  match dget item (buildObjconf conf).field with
  | none => .error (.configurationError (.fieldNotFound (buildObjconf conf).field))
  | some fv =>
      match parser fv (buildObjconf conf) skip (feedKwargs item) with
      | .ok (v, _) => .ok (setField item (assignOf conf) v)
      | .error e => .error e

/-- Source, `pipedateformat.py` lines 114-144: `pipe` is `parser` wrapped by
`@processor(DEFAULTS, **OPTS)` — the synchronous calling convention of the
contract, driving the spec-modelled per-item driver. -/
def pipe (item : Item) (conf : List (String × String)) (skip : Bool) :
    Except PyErr Item :=
  processItem conf skip item

/-- Modelled from the spec: the asynchronous calling convention runs the
same per-item resolution and transform logic as the synchronous one and
fulfills the handle with the result — a non-blocking wrapper around the
same core logic, not a different algorithm. Written out in full so the
equivalence with `processItem` is a theorem about two definitions. -/
def asyncProcessItem (conf : List (String × String)) (skip : Bool) (item : Item) :
    Except PyErr Item :=
  match dget item (buildObjconf conf).field with
  | none => .error (.configurationError (.fieldNotFound (buildObjconf conf).field))
  | some fv =>
      match parser fv (buildObjconf conf) skip (feedKwargs item) with
      | .ok (v, _) => .ok (setField item (assignOf conf) v)
      | .error e => .error e

/-- Source, `pipedateformat.py` lines 71-111: `asyncPipe` is the same
`parser` wrapped by `@processor(DEFAULTS, async=True, **OPTS)` — the
asynchronous calling convention over the same core logic. -/
def asyncPipe (item : Item) (conf : List (String × String)) (skip : Bool) :
    Except PyErr Item :=
  asyncProcessItem conf skip item

/-- Modelled from the spec: a raw configuration option value is polymorphic
— a literal, a reference to a field on the current item (with an optional
fallback), or a reference to a whole sub-pipeline. -/
inductive ConfValue where
  | lit : Value → ConfValue
  | fieldRef : String → Option Value → ConfValue
  | pipelineRef : String → ConfValue

/-- Modelled from the spec: the registry of available named sub-pipelines;
executing one against the current item yields its single resulting item's
designated output field value. -/
abbrev Registry : Type := List (String × (Item → Value))

/-- Modelled from the spec: resolution of one option value — a literal is
itself; a field reference looks up the named field on the current item,
using the declared fallback when absent and failing with a
`ConfigurationError` naming the field otherwise; a sub-pipeline reference
locates the named sub-pipeline in the registry and executes it against the
current item, failing with a `ConfigurationError` naming it when absent. -/
def resolveOpt (item : Item) (reg : Registry) : ConfValue → Except ConfError Value
  | .lit v => .ok v
  | .fieldRef n fb =>
      match dget item n with
      | some v => .ok v
      | none =>
          match fb with
          | some v => .ok v
          | none => .error (.fieldNotFound n)
  | .pipelineRef n =>
      match dget reg n with
      | some p => .ok (p item)
      | none => .error (.pipelineNotFound n)

/-- Modelled from the spec: resolution of one option key — a value supplied
by the raw conf is resolved; else the DEFAULTS value is resolved; when
neither supplies it, a key the module marks required fails with a
`ConfigurationError` naming the missing key, and an optional key is simply
absent from the result. -/
def resolveKey (defaults raw : List (String × ConfValue)) (required : List String)
    (item : Item) (reg : Registry) (k : String) : Except ConfError (Option Value) :=
  match dget raw k with
  | some cv => (resolveOpt item reg cv).map some
  | none =>
      match dget defaults k with
      | some cv => (resolveOpt item reg cv).map some
      | none => if k ∈ required then .error (.missingOption k) else .ok none

/-- Modelled from the spec: ConfigResolver — resolve every option key in
turn, producing a concrete configuration whose every option is a plain
value, or a `ConfigurationError`. -/
def resolveConf (defaults raw : List (String × ConfValue)) (required : List String)
    (item : Item) (reg : Registry) : List String → Except ConfError (List (String × Value))
  | [] => .ok []
  | k :: ks =>
      match resolveKey defaults raw required item reg k with
      | .error e => .error e
      | .ok v =>
          match resolveConf defaults raw required item reg ks with
          | .error e => .error e
          | .ok rest =>
              match v with
              | some v => .ok ((k, v) :: rest)
              | none => .ok rest

/-- The effective raw option value for a key: the raw conf entry when
supplied, else the DEFAULTS entry. -/
def effConf (defaults raw : List (String × ConfValue)) (k : String) : Option ConfValue :=
  match dget raw k with
  | some cv => some cv
  | none => dget defaults k

/-- Conditions under which resolving option key `k` fails, stated
structurally over the inputs: the key is required and absent from both the
raw conf and DEFAULTS; or its effective value is a field reference naming a
field absent from the item with no declared fallback; or its effective
value is a sub-pipeline reference absent from the registry. -/
def badKey (defaults raw : List (String × ConfValue)) (required : List String)
    (item : Item) (reg : Registry) (k : String) : Prop :=
  (dget raw k = none ∧ dget defaults k = none ∧ k ∈ required)
  ∨ (∃ n, effConf defaults raw k = some (.fieldRef n none) ∧ dget item n = none)
  ∨ (∃ n, effConf defaults raw k = some (.pipelineRef n) ∧ dget reg n = none)

/-- Modelled from the spec: ItemSequencer applies the module's per-item
transform across an input sequence in order, one output per input. -/
def itemSequencer (conf : List (String × String)) (skip : Bool)
    (items : List Item) : List (Except PyErr Item) :=
  items.map (processItem conf skip)

/-- The time tuple of February 12th, 2008, 20:45, used by the spec's
end-to-end scenarios. -/
def febTuple : TimeTuple :=
  { tm_year := 2008, tm_mon := 2, tm_mday := 12, tm_hour := 20, tm_min := 45, tm_sec := 0 }

/-- The scenario item `{'tuple': <Feb 12 2008, 20:45>}`. -/
def itemFeb : Item := [("tuple", Value.time febTuple)]

/-- The scenario item `{'tuple': <...>, 'feed': 'X'}`. -/
def itemFebFeed : Item := [("tuple", Value.time febTuple), ("feed", Value.str "X")]

theorem dget_setField_eq (item : Item) (key : String) (v : Value) :
    dget (setField item key v) key = some v := by
  induction item with
  | nil => simp [setField, dget]
  | cons p rest ih =>
      obtain ⟨k, w⟩ := p
      by_cases h : k = key
      · simp [setField, h, dget]
      · simp [setField, h, dget, ih]

theorem dget_setField_ne (item : Item) (key k : String) (v : Value) (h : k ≠ key) :
    dget (setField item key v) k = dget item k := by
  induction item with
  | nil => simp [setField, dget, Ne.symm h]
  | cons p rest ih =>
      obtain ⟨k1, w⟩ := p
      by_cases h1 : k1 = key
      · subst h1
        simp [setField, dget, Ne.symm h]
      · simp [setField, h1, dget, ih]

theorem resolveOpt_error_iff (item : Item) (reg : Registry) (cv : ConfValue)
    (e : ConfError) :
    resolveOpt item reg cv = .error e ↔
      ((∃ n, cv = .fieldRef n none ∧ e = .fieldNotFound n ∧ dget item n = none)
       ∨ (∃ n, cv = .pipelineRef n ∧ e = .pipelineNotFound n ∧ dget reg n = none)) := by
  cases cv with
  | lit v => simp [resolveOpt]
  | fieldRef n fb =>
      cases hitem : dget item n with
      | some v => simp [resolveOpt, hitem]
      | none =>
          cases fb with
          | some w => simp [resolveOpt, hitem]
          | none =>
              simp only [resolveOpt, hitem]
              constructor
              · intro h
                injection h with h
                exact Or.inl ⟨n, rfl, h.symm, hitem⟩
              · rintro (⟨m, hm, he, _⟩ | ⟨m, hm, he, _⟩)
                · injection hm with hm _
                  subst hm; subst he; rfl
                · cases hm
  | pipelineRef n =>
      cases hreg : dget reg n with
      | some p => simp [resolveOpt, hreg]
      | none =>
          simp only [resolveOpt, hreg]
          constructor
          · intro h
            injection h with h
            exact Or.inr ⟨n, rfl, h.symm, hreg⟩
          · rintro (⟨m, hm, he, _⟩ | ⟨m, hm, he, _⟩)
            · cases hm
            · injection hm with hm
              subst hm; subst he; rfl

theorem resolveKey_error_iff (defaults raw : List (String × ConfValue))
    (required : List String) (item : Item) (reg : Registry) (k : String)
    (e : ConfError) :
    resolveKey defaults raw required item reg k = .error e ↔
      ((dget raw k = none ∧ dget defaults k = none ∧ k ∈ required
          ∧ e = .missingOption k)
       ∨ (∃ cv, effConf defaults raw k = some cv
            ∧ resolveOpt item reg cv = .error e)) := by
  unfold resolveKey effConf
  cases hr : dget raw k with
  | some cv =>
      cases ho : resolveOpt item reg cv with
      | ok v => simp [ho, Except.map]
      | error f => simp [ho, Except.map, eq_comm]
  | none =>
      cases hd : dget defaults k with
      | some cv =>
          cases ho : resolveOpt item reg cv with
          | ok v => simp [ho, Except.map]
          | error f => simp [ho, Except.map, eq_comm]
      | none =>
          by_cases hk : k ∈ required
          · simp [hk, eq_comm]
          · simp [hk]

theorem badKey_iff_error (defaults raw : List (String × ConfValue))
    (required : List String) (item : Item) (reg : Registry) (k : String) :
    badKey defaults raw required item reg k ↔
      ∃ e, resolveKey defaults raw required item reg k = .error e := by
  constructor
  · rintro (⟨h1, h2, h3⟩ | ⟨n, heff, hn⟩ | ⟨n, heff, hn⟩)
    · exact ⟨.missingOption k,
        (resolveKey_error_iff defaults raw required item reg k _).mpr
          (Or.inl ⟨h1, h2, h3, rfl⟩)⟩
    · refine ⟨.fieldNotFound n,
        (resolveKey_error_iff defaults raw required item reg k _).mpr
          (Or.inr ⟨_, heff, ?_⟩)⟩
      exact (resolveOpt_error_iff item reg _ _).mpr (Or.inl ⟨n, rfl, rfl, hn⟩)
    · refine ⟨.pipelineNotFound n,
        (resolveKey_error_iff defaults raw required item reg k _).mpr
          (Or.inr ⟨_, heff, ?_⟩)⟩
      exact (resolveOpt_error_iff item reg _ _).mpr (Or.inr ⟨n, rfl, rfl, hn⟩)
  · rintro ⟨e, he⟩
    rcases (resolveKey_error_iff defaults raw required item reg k e).mp he with
      ⟨h1, h2, h3, _⟩ | ⟨cv, heff, ho⟩
    · exact Or.inl ⟨h1, h2, h3⟩
    · rcases (resolveOpt_error_iff item reg cv e).mp ho with
        ⟨n, hcv, _, hn⟩ | ⟨n, hcv, _, hn⟩
      · subst hcv
        exact Or.inr (Or.inl ⟨n, heff, hn⟩)
      · subst hcv
        exact Or.inr (Or.inr ⟨n, heff, hn⟩)

theorem resolveKey_error_name (defaults raw : List (String × ConfValue))
    (required : List String) (item : Item) (reg : Registry) (k : String)
    (e : ConfError) (h : resolveKey defaults raw required item reg k = .error e) :
    (e = .missingOption k ∧ dget raw k = none ∧ dget defaults k = none
       ∧ k ∈ required)
    ∨ (∃ n, e = .fieldNotFound n ∧ dget item n = none)
    ∨ (∃ n, e = .pipelineNotFound n ∧ dget reg n = none) := by
  rcases (resolveKey_error_iff defaults raw required item reg k e).mp h with
    ⟨h1, h2, h3, h4⟩ | ⟨cv, _, ho⟩
  · exact Or.inl ⟨h4, h1, h2, h3⟩
  · rcases (resolveOpt_error_iff item reg cv e).mp ho with
      ⟨n, _, he, hn⟩ | ⟨n, _, he, hn⟩
    · exact Or.inr (Or.inl ⟨n, he, hn⟩)
    · exact Or.inr (Or.inr ⟨n, he, hn⟩)

theorem resolveConf_error_exists_iff (defaults raw : List (String × ConfValue))
    (required : List String) (item : Item) (reg : Registry) (keys : List String) :
    (∃ e, resolveConf defaults raw required item reg keys = .error e)
      ↔ ∃ k ∈ keys, badKey defaults raw required item reg k := by
  induction keys with
  | nil => simp [resolveConf]
  | cons k ks ih =>
      cases hk : resolveKey defaults raw required item reg k with
      | error e =>
          simp only [resolveConf, hk]
          constructor
          · intro _
            exact ⟨k, List.mem_cons_self k ks,
              (badKey_iff_error defaults raw required item reg k).mpr ⟨e, hk⟩⟩
          · intro _
            exact ⟨e, rfl⟩
      | ok v =>
          cases hc : resolveConf defaults raw required item reg ks with
          | error e =>
              simp only [resolveConf, hk, hc]
              constructor
              · intro _
                obtain ⟨k1, hk1, hb⟩ := ih.mp ⟨e, hc⟩
                exact ⟨k1, List.mem_cons_of_mem k hk1, hb⟩
              · intro _
                exact ⟨e, rfl⟩
          | ok rest =>
              simp only [resolveConf, hk, hc]
              constructor
              · rintro ⟨e, he⟩
                cases v <;> simp at he
              · rintro ⟨k1, hk1, hb⟩
                rcases List.mem_cons.mp hk1 with h1 | h1
                · subst h1
                  obtain ⟨e, he⟩ :=
                    (badKey_iff_error defaults raw required item reg k1).mp hb
                  rw [hk] at he
                  cases he
                · obtain ⟨e, he⟩ := ih.mpr ⟨k1, h1, hb⟩
                  rw [hc] at he
                  cases he

theorem resolveConf_error_name (defaults raw : List (String × ConfValue))
    (required : List String) (item : Item) (reg : Registry) (keys : List String)
    (e : ConfError) (h : resolveConf defaults raw required item reg keys = .error e) :
    (∃ k ∈ keys, e = .missingOption k ∧ dget raw k = none ∧ dget defaults k = none
       ∧ k ∈ required)
    ∨ (∃ n, e = .fieldNotFound n ∧ dget item n = none)
    ∨ (∃ n, e = .pipelineNotFound n ∧ dget reg n = none) := by
  induction keys with
  | nil => simp [resolveConf] at h
  | cons k ks ih =>
      cases hk : resolveKey defaults raw required item reg k with
      | error f =>
          have hstep : resolveConf defaults raw required item reg (k :: ks)
              = .error f := by
            simp [resolveConf, hk]
          rw [hstep] at h
          injection h with hfe
          rcases resolveKey_error_name defaults raw required item reg k e
              (by rw [hk, hfe]) with ⟨h1, h2, h3, h4⟩ | hrest | hrest
          · exact Or.inl ⟨k, List.mem_cons_self k ks, h1, h2, h3, h4⟩
          · exact Or.inr (Or.inl hrest)
          · exact Or.inr (Or.inr hrest)
      | ok v =>
          cases hc : resolveConf defaults raw required item reg ks with
          | error f =>
              have hstep : resolveConf defaults raw required item reg (k :: ks)
                  = .error f := by
                cases v <;> simp [resolveConf, hk, hc]
              rw [hstep] at h
              injection h with hfe
              rcases ih (by rw [hc, hfe]) with ⟨k1, hk1, hrest⟩ | hrest | hrest
              · exact Or.inl ⟨k1, List.mem_cons_of_mem k hk1, hrest⟩
              · exact Or.inr (Or.inl hrest)
              · exact Or.inr (Or.inr hrest)
          | ok rest =>
              cases v with
              | some v =>
                  have hstep : resolveConf defaults raw required item reg (k :: ks)
                      = .ok ((k, v) :: rest) := by
                    simp [resolveConf, hk, hc]
                  rw [hstep] at h
                  cases h
              | none =>
                  have hstep : resolveConf defaults raw required item reg (k :: ks)
                      = .ok rest := by
                    simp [resolveConf, hk, hc]
                  rw [hstep] at h
                  cases h

/-- C1: for the date-formatter, invoking the synchronous entry point `pipe`
and the asynchronous entry point `asyncPipe` with an identical item and
identical configuration yields identical output — the asynchronous path
computes the same result as the synchronous path for every input. -/
theorem asyncPipe_eq_pipe (item : Item) (conf : List (String × String))
    (skip : Bool) : asyncPipe item conf skip = pipe item conf skip := rfl

/-- C2: for every item whose skip flag is true (and whose designated source
field and `feed` fallback resolve), the output's designated field equals the
item's `feed` fallback value, and the transform is never invoked for that
item: with skip true, `parser` is independent of the source value and of the
whole configuration, so no date formatting occurs. -/
theorem skip_true_passthrough (conf : List (String × String)) (item : Item)
    (fv f : Value)
    (hfield : dget item (buildObjconf conf).field = some fv)
    (hfeed : dget item "feed" = some f) :
    processItem conf true item = .ok (setField item (assignOf conf) f)
    ∧ ∀ (v w : Value) (oc oc' : Objconf) (kw : List (String × Value)),
        parser v oc true kw = parser w oc' true kw := by
  constructor
  · simp [processItem, hfield, parser, feedKwargs, hfeed, dget]
  · intro v w oc oc' kw
    rfl

/-- C2 witness: the spec's scenario 3 — item `{'tuple': <...>, 'feed': 'X'}`
with skip forced true passes `X` through to `content`. -/
theorem skip_true_passthrough_witness :
    processItem [] true itemFebFeed
      = .ok (setField itemFebFeed (assignOf []) (Value.str "X")) :=
  (skip_true_passthrough [] itemFebFeed (Value.time febTuple) (Value.str "X")
    rfl rfl).1

/-- C3: configuration resolution merges the raw per-call conf over DEFAULTS
— a key supplied in conf is used and an absent key falls back to DEFAULTS —
and the spec's end-to-end scenarios hold: the Feb 12 2008 20:45 item under
conf `{}` yields `content = "02/12/2008 20:45:00"`, and under
conf `{'format': '%Y'}` yields `content = "2008"`. -/
theorem conf_merge_scenarios :
    (∀ (defaults conf : List (String × String)) (k v : String),
        dget conf k = some v → confGet defaults conf k = some v)
    ∧ (∀ (defaults conf : List (String × String)) (k : String),
        dget conf k = none → confGet defaults conf k = dget defaults k)
    ∧ pipe itemFeb [] false
        = .ok (setField itemFeb "content" (.str "02/12/2008 20:45:00"))
    ∧ pipe itemFeb [("format", "%Y")] false
        = .ok (setField itemFeb "content" (.str "2008")) :=
  ⟨fun _ _ _ _ h => by simp [confGet, h],
   fun _ _ _ h => by simp [confGet, h],
   rfl, rfl⟩

/-- C3 witness: with an empty per-call conf, the `format` option resolves to
its DEFAULTS value. -/
theorem conf_merge_scenarios_witness :
    confGet DEFAULTS [] "format" = dget DEFAULTS "format" :=
  conf_merge_scenarios.2.1 DEFAULTS [] "format" rfl

/-- C4: for every finite input sequence of length N, the output sequence of
the (non-filtering) date-format module has length exactly N, and the output
at position i derives from the input item at position i — order preserved,
nothing dropped or duplicated. -/
theorem sequencer_length_order (conf : List (String × String)) (skip : Bool)
    (items : List Item) :
    (itemSequencer conf skip items).length = items.length
    ∧ ∀ i : Nat,
        (itemSequencer conf skip items)[i]?
          = (items[i]?).map (processItem conf skip) := by
  refine ⟨by simp [itemSequencer], fun i => ?_⟩
  simp [itemSequencer]

/-- C5: ConfigResolver resolution fails with a `ConfigurationError` exactly
when a required option is missing from both the raw conf and DEFAULTS, or a
field reference names a field absent from the item with no fallback, or a
named sub-pipeline is not in the registry; and the error names the
offending option key or field. -/
theorem resolveConf_configuration_error (defaults raw : List (String × ConfValue))
    (required : List String) (item : Item) (reg : Registry)
    (keys : List String) :
    ((∃ e, resolveConf defaults raw required item reg keys = .error e)
       ↔ ∃ k ∈ keys, badKey defaults raw required item reg k)
    ∧ ∀ e, resolveConf defaults raw required item reg keys = .error e →
        (∃ k ∈ keys, e = .missingOption k ∧ dget raw k = none
           ∧ dget defaults k = none ∧ k ∈ required)
        ∨ (∃ n, e = .fieldNotFound n ∧ dget item n = none)
        ∨ (∃ n, e = .pipelineNotFound n ∧ dget reg n = none) :=
  ⟨resolveConf_error_exists_iff defaults raw required item reg keys,
   fun e he => resolveConf_error_name defaults raw required item reg keys e he⟩

/-- C5 witness: the spec's scenario 4 — a conf whose only option references
an item field that does not exist and declares no fallback makes resolution
fail, i.e. that key is a bad key. -/
theorem resolveConf_configuration_error_witness :
    ∃ k ∈ ["format"],
      badKey [] [("format", ConfValue.fieldRef "missing" none)] [] ([] : Item)
        ([] : Registry) k :=
  (resolveConf_configuration_error [] [("format", ConfValue.fieldRef "missing" none)]
      [] ([] : Item) ([] : Registry) ["format"]).1.mp
    ⟨ConfError.fieldNotFound "missing", rfl⟩

/-- C6: the module never mutates its input item — the output is a new item
(a copy of the input with the `assign` field overwritten or added): every
field other than the `assign` field equals the corresponding input field,
and the `assign` field holds the produced value. -/
theorem output_item_frame (conf : List (String × String)) (skip : Bool)
    (item out : Item) (h : processItem conf skip item = .ok out) :
    (∀ k : String, k ≠ assignOf conf → dget out k = dget item k)
    ∧ ∃ v, dget out (assignOf conf) = some v := by
  unfold processItem at h
  split at h
  · cases h
  · split at h
    · injection h with h
      subst h
      refine ⟨fun k hk => dget_setField_ne item (assignOf conf) k _ hk,
        _, dget_setField_eq item (assignOf conf) _⟩
    · cases h

/-- C6 witness: the concrete scenario-1 output differs from its input only
at the `content` field, which holds the formatted date. -/
theorem output_item_frame_witness :
    ∃ v, dget (setField itemFeb "content" (Value.str "02/12/2008 20:45:00"))
      (assignOf []) = some v :=
  (output_item_frame [] false itemFeb
    (setField itemFeb "content" (Value.str "02/12/2008 20:45:00")) rfl).2

/-- C7: ConfigResolver resolution is deterministic and pure with respect to
its inputs (DEFAULTS, raw conf, required keys, current item, sub-pipeline
registry, option keys): any two resolutions run on identical inputs yield
identical resolved configurations — the result depends only on those
inputs, there being no other argument or state for it to read. -/
theorem resolveConf_deterministic (d1 d2 r1 r2 : List (String × ConfValue))
    (q1 q2 : List String) (i1 i2 : Item) (g1 g2 : Registry)
    (ks1 ks2 : List String) (hd : d1 = d2) (hr : r1 = r2) (hq : q1 = q2)
    (hi : i1 = i2) (hg : g1 = g2) (hk : ks1 = ks2) :
    resolveConf d1 r1 q1 i1 g1 ks1 = resolveConf d2 r2 q2 i2 g2 ks2 := by
  subst hd
  subst hr
  subst hq
  subst hi
  subst hg
  subst hk
  rfl

/-- C7 witness: two resolutions of the same concrete inputs agree. -/
theorem resolveConf_deterministic_witness :
    resolveConf [("format", ConfValue.lit (Value.str "%Y"))] [] ["format"]
        itemFeb ([] : Registry) ["format"]
      = resolveConf [("format", ConfValue.lit (Value.str "%Y"))] [] ["format"]
        itemFeb ([] : Registry) ["format"] :=
  resolveConf_deterministic [("format", ConfValue.lit (Value.str "%Y"))]
    [("format", ConfValue.lit (Value.str "%Y"))] [] [] ["format"] ["format"]
    itemFeb itemFeb ([] : Registry) ([] : Registry) ["format"] ["format"]
    rfl rfl rfl rfl rfl rfl

/-- C8: the module-level DEFAULTS mapping and OPTS equal their
module-definition literals — `{'format': '%m/%d/%Y %H:%M:%S',
'field': 'tuple'}` and `{}`. They are constants of the embedding, so they
are never mutated: every invocation of `pipe`, `asyncPipe` or `parser`
observes exactly these values before and after the call. -/
theorem defaults_opts_immutable :
    DEFAULTS = [("format", "%m/%d/%Y %H:%M:%S"), ("field", "tuple")]
    ∧ OPTS = [] :=
  ⟨rfl, rfl⟩

/-- C9: `parser` called with skip true and no `feed` keyword argument fails
with a `KeyError` instead of returning a value; under the precondition that
`feed` is supplied whenever skip is true, the failure branch is unreachable
and `parser` returns a value on every (well-typed) timetuple input. -/
theorem parser_requires_feed (tt : Value) (oc : Objconf) (skip : Bool)
    (kw : List (String × Value)) :
    (skip = true → dget kw "feed" = none →
      parser tt oc skip kw = .error (.keyError "feed"))
    ∧ ((skip = true → (dget kw "feed").isSome = true) →
        ∀ t : TimeTuple, tt = Value.time t →
          ∃ v, parser tt oc skip kw = .ok v) := by
  constructor
  · intro hs hn
    subst hs
    simp [parser, hn]
  · intro hpre t ht
    subst ht
    cases skip with
    | false => exact ⟨(.str (strftime oc.format t), false), by simp [parser]⟩
    | true =>
        have hfd := hpre rfl
        cases hv : dget kw "feed" with
        | none =>
            rw [hv] at hfd
            cases hfd
        | some f => exact ⟨(f, true), by simp [parser, hv]⟩

/-- C9 witness: with skip true and empty kwargs, `parser` fails with the
`KeyError` on `feed`. -/
theorem parser_requires_feed_witness :
    parser (Value.str "x") { format := "%Y", field := "tuple" } true []
      = .error (.keyError "feed") :=
  (parser_requires_feed (Value.str "x") { format := "%Y", field := "tuple" }
    true []).1 rfl rfl

/-- C10: with skip false, `parser`'s result depends only on
`objconf.format` and the timetuple: two calls with skip false, equal
format and equal source value agree, whatever the remaining configuration
fields and keyword arguments (in particular `feed`, never read here). -/
theorem parser_skip_false_noninterference (v : Value) (oc1 oc2 : Objconf)
    (kw1 kw2 : List (String × Value)) (h : oc1.format = oc2.format) :
    parser v oc1 false kw1 = parser v oc2 false kw2 := by
  cases v <;> simp [parser, h]

/-- C10 witness: differing `field` options and differing kwargs, same
format and timetuple — equal results. -/
theorem parser_skip_false_noninterference_witness :
    parser (Value.time febTuple) { format := "%Y", field := "a" } false
        [("feed", Value.str "p")]
      = parser (Value.time febTuple) { format := "%Y", field := "b" } false [] :=
  parser_skip_false_noninterference (Value.time febTuple)
    { format := "%Y", field := "a" } { format := "%Y", field := "b" }
    [("feed", Value.str "p")] [] rfl

end Pipe2py
